import Mathlib

/-!
Verification of the react_hackernews single-page application (src/App.js).

The file shallowly embeds the pure logic of the app:
  * the `storiesReducer` state machine (four recognized action tags plus the
    throwing default branch, modelled by `Option`: `none` is the thrown error);
  * the `useSemiPersistentState` hook over browser `localStorage`
    (`getItem`/`setItem` over a key/value map, with JavaScript's
    `x || y` falsiness fallback modelled by `jsOr`);
  * the committed query URL construction of `handleSearchSubmit`.
-/

namespace App

/-- One search-result record, as consumed by App.js (fields read by the
render tree and by the `REMOVE_STORY` filter). `objectID` is the Algolia
string identifier compared with `!==` in the reducer. -/
structure Story where
  objectID : String
  title : String
  url : String
  author : String
  num_comments : Nat
  points : Nat
deriving DecidableEq, Repr

/-- The reducer state `{ data, isLoading, isError }` initialised in App.js as
`{ data: [], isLoading: false, isError: false }`. -/
structure StoriesState where
  data : List Story
  isLoading : Bool
  isError : Bool
deriving DecidableEq, Repr

/-- Actions dispatched to `storiesReducer`. The four recognized constructors
carry the payload shapes actually dispatched in App.js; `UNKNOWN t` stands
for any action object whose `type` string `t` is none of the four case
labels of the switch. -/
inductive Action where
  | STORIES_FETCH_INIT : Action
  | STORIES_FETCH_SUCCESS : List Story → Action
  | STORIES_FETCH_FAILURE : Action
  | REMOVE_STORY : Story → Action
  | UNKNOWN : String → Action
deriving DecidableEq, Repr

/-- The `action.type` string the switch in `storiesReducer` dispatches on. -/
def Action.type : Action → String
  | .STORIES_FETCH_INIT => "STORIES_FETCH_INIT"
  | .STORIES_FETCH_SUCCESS _ => "STORIES_FETCH_SUCCESS"
  | .STORIES_FETCH_FAILURE => "STORIES_FETCH_FAILURE"
  | .REMOVE_STORY _ => "REMOVE_STORY"
  | .UNKNOWN t => t

/-- The four case labels of the switch in `storiesReducer`. -/
def recognizedTypes : List String :=
  ["STORIES_FETCH_INIT", "STORIES_FETCH_SUCCESS",
   "STORIES_FETCH_FAILURE", "REMOVE_STORY"]

/-- `storiesReducer` from App.js. The default branch does `throw new Error()`,
modelled by returning `none`; every recognized case returns the next state. -/
def storiesReducer (state : StoriesState) (action : Action) :
    Option StoriesState :=
  match action with
  | .STORIES_FETCH_INIT =>
      some { state with isLoading := true, isError := false }
  | .STORIES_FETCH_SUCCESS payload =>
      some { state with isLoading := false, isError := false, data := payload }
  | .STORIES_FETCH_FAILURE =>
      some { state with isLoading := false, isError := true }
  | .REMOVE_STORY payload =>
      some { state with
        data := state.data.filter
          (fun story => payload.objectID != story.objectID) }
  | .UNKNOWN _ => none

/-- Browser `localStorage`, restricted to what App.js uses: a partial map
from keys to strings. -/
def Storage := String → Option String

/-- `localStorage.getItem(key)`: the stored string, or `none` for the
JavaScript `null` returned on absence. -/
def getItem (storage : Storage) (key : String) : Option String :=
  storage key

/-- `localStorage.setItem(key, value)`. -/
def setItem (storage : Storage) (key value : String) : Storage :=
  fun k => if k = key then some value else storage k

/-- JavaScript `x || y` where `x` is a string-or-null: `null` and the empty
string are falsy and fall through to `y`. -/
def jsOr (x : Option String) (y : String) : String :=
  match x with
  | none => y
  | some s => if s = "" then y else s

/-- The initial value computed by `useSemiPersistentState`:
`localStorage.getItem(key) || initialValue`. -/
def useSemiPersistentStateInit (key initialValue : String)
    (storage : Storage) : String :=
  jsOr (getItem storage key) initialValue

/-- The observable state of one `useSemiPersistentState` hook instance:
its current `value` and the browser storage it writes through to. -/
structure SessionState where
  value : String
  storage : Storage

/-- A fresh load: the hook initialises `value` from storage (falling back to
`initialValue`), and its effect `localStorage.setItem(key, value)` runs once
after the first render. -/
def mountSession (key initialValue : String) (storage : Storage) :
    SessionState :=
  let v := useSemiPersistentStateInit key initialValue storage
  { value := v, storage := setItem storage key v }

/-- One committed change of the hook's value (`setValue newValue`), followed
by the effect re-running and persisting the new value under `key`. -/
def setValue (key : String) (s : SessionState) (newValue : String) :
    SessionState :=
  { value := newValue, storage := setItem s.storage key newValue }

/-- `API_ENDPOINT` from App.js. -/
def API_ENDPOINT : String := "https://hn.algolia.com/api/v1/search?query="

/-- `handleSearchSubmit`: the committed query URL it stores via `setUrl`,
built from the current search term as the template literal
`${API_ENDPOINT}${searchTerm}`. -/
def handleSearchSubmit (searchTerm : String) : String :=
  API_ENDPOINT ++ searchTerm

/-- Sample story with identifier "1" used to instantiate theorems. -/
def storyA : Story := ⟨"1", "A", "https://a.example", "alice", 3, 10⟩

/-- A second story sharing identifier "1" with `storyA`. -/
def storyA2 : Story := ⟨"1", "A again", "https://a2.example", "ann", 0, 2⟩

/-- Sample story with identifier "2". -/
def storyB : Story := ⟨"2", "B", "https://b.example", "bob", 1, 5⟩

/-- C1: the fetch-success transition replaces the collection by the payload
exactly (same list, same order), and sets the loading and error flags to
false. -/
theorem storiesReducer_fetch_success (s : StoriesState) (p : List Story) :
    storiesReducer s (Action.STORIES_FETCH_SUCCESS p)
      = some { data := p, isLoading := false, isError := false } := rfl

/-- C2: the fetch-failure transition sets loading to false and error to true
and leaves the collection exactly as it was before the failed fetch. -/
theorem storiesReducer_fetch_failure (s : StoriesState) :
    storiesReducer s Action.STORIES_FETCH_FAILURE
      = some { data := s.data, isLoading := false, isError := true } := rfl

/-- C6: the fetch-start transition sets loading to true and error to false
and leaves the collection exactly as it was. -/
theorem storiesReducer_fetch_init (s : StoriesState) :
    storiesReducer s Action.STORIES_FETCH_INIT
      = some { data := s.data, isLoading := true, isError := false } := rfl

/-- C3: the remove transition succeeds and yields a state whose loading and
error flags are untouched, whose collection keeps exactly the stories whose
objectID differs from the removed item's (in their original relative order),
and which is unchanged when no story carries the removed identifier. -/
theorem storiesReducer_remove_spec (s : StoriesState) (item : Story) :
    ∃ s', storiesReducer s (Action.REMOVE_STORY item) = some s' ∧
      s'.isLoading = s.isLoading ∧ s'.isError = s.isError ∧
      (∀ st : Story,
        st ∈ s'.data ↔ st ∈ s.data ∧ st.objectID ≠ item.objectID) ∧
      s'.data.Sublist s.data ∧
      ((∀ st ∈ s.data, st.objectID ≠ item.objectID) → s'.data = s.data) := by
  refine ⟨_, rfl, rfl, rfl, ?_, ?_, ?_⟩
  · intro st
    simp only [List.mem_filter, bne_iff_ne]
    exact and_congr_right fun _ => ⟨Ne.symm, Ne.symm⟩
  · exact List.filter_sublist _
  · intro h
    refine List.filter_eq_self.mpr fun a ha => ?_
    simpa [bne_iff_ne] using Ne.symm (h a ha)

/-- C3 witness: on the collection [storyA, storyB], removing storyA keeps
storyB and drops storyA. -/
theorem storiesReducer_remove_spec_witness :
    ∃ s', storiesReducer ⟨[storyA, storyB], false, false⟩
        (Action.REMOVE_STORY storyA) = some s' ∧
      storyB ∈ s'.data ∧ storyA ∉ s'.data := by
  obtain ⟨s', hs, _, _, hmem, _, _⟩ :=
    storiesReducer_remove_spec ⟨[storyA, storyB], false, false⟩ storyA
  refine ⟨s', hs, ?_, ?_⟩
  · exact (hmem storyB).mpr ⟨by simp, by decide⟩
  · intro hA
    exact ((hmem storyA).mp hA).2 rfl

/-- C10: when several stories share the removed identifier, the remove
transition deletes every story with that objectID: none remains, the
surviving stories keep their relative order, and every story with a
different objectID survives with its exact multiplicity. -/
theorem storiesReducer_remove_duplicates (s : StoriesState) (item : Story) :
    ∃ s', storiesReducer s (Action.REMOVE_STORY item) = some s' ∧
      (∀ st ∈ s'.data, st.objectID ≠ item.objectID) ∧
      s'.data.Sublist s.data ∧
      (∀ st : Story, st.objectID ≠ item.objectID →
        s'.data.count st = s.data.count st) := by
  refine ⟨_, rfl, ?_, ?_, ?_⟩
  · intro st hst
    have := (List.mem_filter.mp hst).2
    simpa [bne_iff_ne] using Ne.symm (bne_iff_ne.mp this)
  · exact List.filter_sublist _
  · intro st hne
    exact List.count_filter (by simpa [bne_iff_ne] using Ne.symm hne)

/-- C10 witness: removing storyA from [storyA, storyA2, storyB], where
storyA2 shares storyA's identifier, leaves no story with that identifier
and keeps storyB once. -/
theorem storiesReducer_remove_duplicates_witness :
    ∃ s', storiesReducer ⟨[storyA, storyA2, storyB], false, false⟩
        (Action.REMOVE_STORY storyA) = some s' ∧
      (∀ st ∈ s'.data, st.objectID ≠ storyA.objectID) ∧
      s'.data.count storyB = 1 := by
  obtain ⟨s', hs, hnone, _, hcount⟩ :=
    storiesReducer_remove_duplicates ⟨[storyA, storyA2, storyB], false, false⟩
      storyA
  refine ⟨s', hs, hnone, ?_⟩
  rw [hcount storyB (by decide)]
  decide

/-- C7: the reducer rejects every action whose type string is none of the
four recognized case labels: the default branch of the switch throws
(modelled by `none`) instead of returning a state. -/
theorem storiesReducer_unrecognized (s : StoriesState) (a : Action)
    (h : a.type ∉ recognizedTypes) : storiesReducer s a = none := by
  cases a <;> simp_all [storiesReducer, Action.type, recognizedTypes]

/-- C7 witness: an action tagged "FOO" makes the reducer throw. -/
theorem storiesReducer_unrecognized_witness :
    storiesReducer ⟨[], false, false⟩ (Action.UNKNOWN "FOO") = none :=
  storiesReducer_unrecognized ⟨[], false, false⟩ (Action.UNKNOWN "FOO")
    (by decide)

/-- C4: for a non-empty committed search term, the query URL set on
submission is exactly the fixed endpoint string concatenated with the
term. -/
theorem handleSearchSubmit_commits_url (T : String) (_h : T ≠ "") :
    handleSearchSubmit T
      = "https://hn.algolia.com/api/v1/search?query=" ++ T := rfl

/-- C4 witness: submitting "React" commits the endpoint followed by
"React". -/
theorem handleSearchSubmit_commits_url_witness :
    handleSearchSubmit "React"
      = "https://hn.algolia.com/api/v1/search?query=" ++ "React" :=
  handleSearchSubmit_commits_url "React" (by decide)

/-- C8: when nothing is stored under the key (`getItem` returns null), the
hook initialises to the supplied default instead of failing. -/
theorem useSemiPersistentStateInit_absent (key initialValue : String)
    (storage : Storage) (h : getItem storage key = none) :
    useSemiPersistentStateInit key initialValue storage = initialValue := by
  unfold useSemiPersistentStateInit
  rw [h]
  rfl

/-- C8 witness: with empty storage, key "search" and default "React", the
initial value is "React". -/
theorem useSemiPersistentStateInit_absent_witness :
    useSemiPersistentStateInit "search" "React" (fun _ => none) = "React" :=
  useSemiPersistentStateInit_absent "search" "React" (fun _ => none) rfl

/-- C9: an empty string stored under the key is treated like absence: the
`||` fallback is on falsiness, so the hook initialises to the supplied
default rather than the stored empty string. -/
theorem useSemiPersistentStateInit_empty_string (key initialValue : String)
    (storage : Storage) (h : getItem storage key = some "") :
    useSemiPersistentStateInit key initialValue storage = initialValue := by
  unfold useSemiPersistentStateInit
  rw [h]
  rfl

/-- C9 witness: with "" stored under "search" and default "React", the
initial value is "React", not "". -/
theorem useSemiPersistentStateInit_empty_string_witness :
    useSemiPersistentStateInit "search" "React" (fun _ => some "") = "React" :=
  useSemiPersistentStateInit_empty_string "search" "React" (fun _ => some "")
    rfl

/-- C5 counterexample: committing the empty search term (clearing the input)
persists "" as the most recent committed value, yet a fresh load initialises
to the default "React", not to the persisted value — refuting "on a fresh
load the initial search term equals that persisted value" as stated. -/
theorem useSemiPersistentState_restore_counterexample :
    getItem (setValue "search"
        (mountSession "search" "React" (fun _ => none)) "").storage "search"
      = some "" ∧
    (mountSession "search" "React"
        (setValue "search"
          (mountSession "search" "React" (fun _ => none)) "").storage).value
      ≠ "" := by
  constructor
  · rfl
  · decide

/-- C5 (amended): after any committed change, the value persisted under the
key equals the most recently committed term; and a fresh load initialises to
that persisted value provided it is non-empty (an empty persisted value
falls back to the default). -/
theorem useSemiPersistentState_persistence (key initialValue : String)
    (s0 : SessionState) (pre : List String) (lastTerm : String) :
    getItem ((pre ++ [lastTerm]).foldl (setValue key) s0).storage key
      = some lastTerm ∧
    (lastTerm ≠ "" →
      (mountSession key initialValue
          ((pre ++ [lastTerm]).foldl (setValue key) s0).storage).value
        = lastTerm) := by
  rw [List.foldl_append]
  constructor
  · simp [setValue, setItem, getItem]
  · intro h
    simp [mountSession, useSemiPersistentStateInit, jsOr, getItem, setValue,
      setItem, h]

/-- C5 witness: committing "Re" then "Redux" persists "Redux", and a fresh
load restores "Redux". -/
theorem useSemiPersistentState_persistence_witness :
    getItem ((["Re"] ++ ["Redux"]).foldl (setValue "search")
        (mountSession "search" "React" (fun _ => none))).storage "search"
      = some "Redux" ∧
    (mountSession "search" "React"
        ((["Re"] ++ ["Redux"]).foldl (setValue "search")
          (mountSession "search" "React" (fun _ => none))).storage).value
      = "Redux" := by
  have h := useSemiPersistentState_persistence "search" "React"
    (mountSession "search" "React" (fun _ => none)) ["Re"] "Redux"
  exact ⟨h.1, h.2 (by decide)⟩

end App
